import Mathlib

/-!
Shallow embedding of the zprocess messaging substrate
(src/zprocess/__init__.py) and proofs about its specified behaviour.

Python 3 semantics are assumed throughout (the module's `PY2` flag is
false), so Python-2-only branches are dead code and are omitted.
Serialization (`pickle.dumps`/`pickle.loads`) is modelled as the identity
round-trip on values; byte strings are lists of byte values.
-/

namespace ZProcess

/-- Python runtime values that can appear as wire payloads or replies:
`None`, `bytes`, `str`, lists, ints, and exception objects (which the
`pyobj` wire kind can carry as first-class replies). -/
inductive Data where
  | pynone
  | pybytes (b : List Nat)
  | pystr (s : String)
  | pylist (parts : List Data)
  | pyint (n : Int)
  | pyexc (msg : String)

/-- `data is None` -/
def Data.isNone : Data → Bool
  | .pynone => true
  | _ => false

/-- `isinstance(data, bytes)` -/
def Data.isBytes : Data → Bool
  | .pybytes _ => true
  | _ => false

/-- `isinstance(data, str)` (Python 3 `str`) -/
def Data.isStr : Data → Bool
  | .pystr _ => true
  | _ => false

/-- `isinstance(data, Exception)` -/
def Data.isExc : Data → Bool
  | .pyexc _ => true
  | _ => false

/-- Iterating a Python value: lists yield their elements, `bytes` yields
ints (Python 3), `str` yields one-character strings; `None`, ints and
exceptions are not iterable (iterating them raises `TypeError`). -/
def Data.iterParts : Data → Option (List Data)
  | .pylist l => some l
  | .pybytes b => some (b.map fun n => Data.pyint (Int.ofNat n))
  | .pystr s => some (s.data.map fun c => Data.pystr (String.singleton c))
  | _ => none

/-- The four wire kinds (`send_type` strings `'raw'`, `'string'`,
`'multipart'`, `'pyobj'`). -/
inductive SendType where
  | raw
  | string
  | multipart
  | pyobj
  deriving DecidableEq, Repr

/-- Python exceptions the embedded code can raise. -/
inductive PyError where
  | typeError (msg : String)
  | valueError (msg : String)
  | timeoutError (msg : String)
  | assertionError
  deriving DecidableEq, Repr

/-- `_typecheck_or_convert_data(data, send_type)` from the source:
a null payload becomes `b''` for raw/multipart; a bare bytes payload is
wrapped into a one-element list for multipart; then the payload is
type-checked for the configured kind, raising `TypeError` on mismatch
(`pyobj` accepts anything). The Python-2-only auto-decode branch for
`string` is dead code under Python 3 and omitted. -/
def typecheck_or_convert_data (data : Data) (send_type : SendType) :
    Except PyError Data :=
  -- when not using python objects, a null message should be an empty string:
  let data := if data.isNone ∧ (send_type = .raw ∨ send_type = .multipart)
    then Data.pybytes [] else data
  -- wrap a single bytes object into a list so it is not fragmented:
  let data := if send_type = .multipart ∧ data.isBytes
    then Data.pylist [data] else data
  match send_type with
  | .raw =>
      if data.isBytes then .ok data
      else .error (.typeError "raw sockets can only send bytes")
  | .string =>
      if data.isStr then .ok data
      else .error (.typeError "string sockets can only send strings")
  | .multipart =>
      match data.iterParts with
      | none => .error (.typeError "object is not iterable")
      | some parts =>
          if parts.all Data.isBytes then .ok data
          else .error
            (.typeError "multipart sockets can only send an iterable of bytes objects")
  | .pyobj => .ok data

/-! ### ZMQGet: the request/reply client (`ZMQGet.__call__` / `new_socket`)

One `ZMQGet` instance caches one REQ socket per calling thread; the model
follows a single thread, so the cache is one `Option Conn`.  A `Conn`
records the resolved host and port the socket was connected to and a
generation number distinguishing each fresh socket created by
`new_socket`.  Whether the server replies within the poll timeout, and
with what value, is an input to the model (the `reply` argument:
`none` means the poll expired with no reply). -/

/-- A connected REQ socket as created by `ZMQGet.new_socket`. -/
structure Conn where
  host : Nat
  port : Nat
  gen : Nat
  deriving DecidableEq, Repr

/-- The per-thread state of a `ZMQGet` instance: the cached socket (if
any) and a counter supplying generation numbers for fresh sockets. -/
structure GetState where
  sock : Option Conn
  nextGen : Nat

/-- How a `ZMQGet.__call__` invocation ends. -/
inductive GetError where
  | timeout (msg : String)        -- `raise TimeoutError(...)`
  | appException (msg : String)   -- `raise response` (exception reply)
  | pyError (e : PyError)         -- e.g. TypeError from the typecheck
  deriving DecidableEq, Repr

/-- Everything observable about one `ZMQGet.__call__` invocation. -/
structure GetOutcome where
  result : Except GetError Data
  state : GetState
  sent : List Data          -- payloads sent on the socket during this call
  madeNewSocket : Bool      -- whether `new_socket` ran

/-- `ZMQGet.__call__(port, host, data, timeout)`.  A new socket is made
when none is cached or the cached one targets a different (host, port).
The payload is typechecked before sending.  `reply` says whether the
poll saw a reply within the timeout: on no reply a `TimeoutError` is
raised and the socket discarded (`del self.local.sock`); a reply that is
an exception value is re-raised locally and the socket is likewise
discarded; a normal reply is returned with the socket kept. -/
def zmqGetCall (ty : SendType) (st : GetState) (host port : Nat)
    (data : Data) (reply : Option Data) : GetOutcome :=
  let needNew : Bool := match st.sock with
    | none => true
    | some c => c.host ≠ host ∨ c.port ≠ port
  let conn : Conn := match st.sock with
    | none => ⟨host, port, st.nextGen⟩
    | some c => if needNew then ⟨host, port, st.nextGen⟩ else c
  let st : GetState :=
    if needNew then ⟨some conn, st.nextGen + 1⟩ else st
  match typecheck_or_convert_data data ty with
  | .error e =>
      -- typecheck raises before the try block: socket kept, nothing sent
      { result := .error (.pyError e), state := st, sent := [],
        madeNewSocket := needNew }
  | .ok d =>
      match reply with
      | none =>
          { result := .error (.timeout "No response from server: timed out"),
            state := { st with sock := none }, sent := [d],
            madeNewSocket := needNew }
      | some r =>
          if r.isExc then
            { result := .error (.appException (match r with
                | .pyexc m => m
                | _ => "")),
              state := { st with sock := none }, sent := [d],
              madeNewSocket := needNew }
          else
            { result := .ok r, state := st, sent := [d],
              madeNewSocket := needNew }

/-! ### Heartbeat client (`HeartbeatClient.mainloop` / `create_instance`) -/

/-- `time.sleep(1)`: the fixed interval between heartbeat cycles, in
seconds (source line 360). -/
def heartbeat_interval_seconds : Nat := 1

/-- `self.sock.poll(1000)`: how long each cycle waits for the echo, in
milliseconds (source line 362). -/
def heartbeat_poll_timeout_ms : Nat := 1000

/-- What one heartbeat cycle observes after sending the pid:
either some bytes were echoed back within the poll timeout, or the poll
expired with nothing to receive (which is also how a dead or unreachable
relay manifests on a connected REQ socket). -/
inductive CycleOutcome where
  | echo (msg : List Nat)
  | timeout
  deriving DecidableEq, Repr

/-- How the heartbeat main loop stands after consuming a finite prefix
of cycle outcomes. -/
inductive HBResult where
  | running                        -- still looping, process alive
  | killed (acquiredLock : Bool)   -- os.kill(os.getpid(), SIGTERM) ran
  deriving DecidableEq, Repr

/-- `HeartbeatClient.mainloop`, run over a finite list of per-cycle
observations.  Each iteration sleeps, sends the pid bytes, and breaks
out of the loop on poll timeout or on an echo different from the pid;
breaking out leads unconditionally to `os.kill(os.getpid(), SIGTERM)`,
holding `self.lock` while killing when a lock was given. -/
def heartbeatMainloop (pid : List Nat) (lock : Option Unit) :
    List CycleOutcome → HBResult
  | [] => .running
  | .timeout :: _ => .killed lock.isSome
  | .echo msg :: rest =>
      if msg = pid then heartbeatMainloop pid lock rest
      else .killed lock.isSome

/-- `HeartbeatClient.create_instance` always constructs the client with
a freshly created `threading.Lock()` (never `None`): the kill lock. -/
def heartbeat_create_instance_lock : Option Unit := some ()

/-! ### ZMQServer: one iteration of the accept loop (`ZMQServer.mainloop`) -/

/-- UTF-8 encoding of a string, as a list of byte values
(`s.encode('utf8')`). -/
def utf8Encode (s : String) : List Nat :=
  s.toUTF8.toList.map UInt8.toNat

/-- What the registered handler does with a request: return a response
value, or raise. -/
inductive HandlerOutcome where
  | ok (response : Data)
  | exc (msg : String)

/-- The reply the server sends when the handler (or the typecheck of its
return value) raised: a `zmq.ZMQError` describing the failure, re-encoded
per wire kind — `str(e).encode('utf8')` for raw, `[str(e).encode('utf8')]`
for multipart, `str(e)` for string, and the exception object itself for
pyobj. -/
def serverErrorReply (ty : SendType) (excString : String) : Data :=
  let msg := "The server had an unhandled exception whilst processing the request:\n"
    ++ excString
  match ty with
  | .raw => .pybytes (utf8Encode msg)
  | .multipart => .pylist [.pybytes (utf8Encode msg)]
  | .string => .pystr msg
  | .pyobj => .pyexc msg

/-- Everything observable about one iteration of `ZMQServer.mainloop`
after a request has been received. -/
structure ServerStep where
  replies : List Data    -- what `self.send` was called with, in order
  asyncRaised : Bool     -- whether `raise_exception_in_thread` ran
  continues : Bool       -- whether the loop proceeds to the next recv

/-- One iteration of `ZMQServer.mainloop` past the `recv`: invoke the
handler, typecheck its response; if either raises, re-raise the
exception in a separate thread and substitute the error reply; in every
case send exactly one reply and continue looping. -/
def serverMainloopStep (ty : SendType) (h : HandlerOutcome) : ServerStep :=
  match h with
  | .exc m =>
      { replies := [serverErrorReply ty m], asyncRaised := true,
        continues := true }
  | .ok resp =>
      match typecheck_or_convert_data resp ty with
      | .ok d => { replies := [d], asyncRaised := false, continues := true }
      | .error e =>
          { replies := [serverErrorReply ty (match e with
              | .typeError m => m
              | .valueError m => m
              | .timeoutError m => m
              | .assertionError => "AssertionError")],
            asyncRaised := true, continues := true }

/-! ### Event bus (`Event.__init__` / `Event.post` / `Event.wait`)

Posting sends `[event_name.encode, str(id).encode, pickle.dumps(data)]`
on the broker's fan-in side; waiting subscribes by event name and scans
the fan-out stream for a message whose id field equals `str(id)`.
Serialization is modelled as the identity, so a message carries its
`Data` directly; the id field carries the string `str(id)` produced at
post time. -/

/-- Python values an application may use as an event id. -/
inductive PyVal where
  | vstr (s : String)
  | vint (n : Int)
  | vbool (b : Bool)
  deriving DecidableEq, Repr

/-- Python `str()` of an id value. -/
def PyVal.pyStr : PyVal → String
  | .vstr s => s
  | .vint n => toString n
  | .vbool b => if b then "True" else "False"

/-- One message on the event bus (after decoding its three frames). -/
structure EventMsg where
  name : String
  id : String
  data : Data

/-- The configuration of an `Event` instance after `__init__` succeeded. -/
structure EventCfg where
  event_name : String
  can_wait : Bool
  can_post : Bool

/-- `Event.__init__(event_name, type)`: any mode string other than
`'wait'`, `'post'`, `'both'` raises `ValueError`; otherwise the instance
can wait (mode wait/both) and/or post (mode post/both). -/
def eventInit (event_name : String) (ty : String) : Except PyError EventCfg :=
  if ty = "wait" ∨ ty = "post" ∨ ty = "both" then
    .ok { event_name := event_name
          can_wait := ty = "wait" ∨ ty = "both"
          can_post := ty = "post" ∨ ty = "both" }
  else
    .error (.valueError "type must be 'wait', 'post', or 'both'")

/-- `Event.post(id, data)`: raises `ValueError` if the instance cannot
post (and then sends nothing, hence the `List EventMsg` of messages sent:
empty on error); otherwise publishes one three-frame message whose id
field is `str(id)`. -/
def eventPost (cfg : EventCfg) (id : PyVal) (data : Data) :
    Except PyError Unit × List EventMsg :=
  if cfg.can_post then
    (.ok (), [{ name := cfg.event_name, id := id.pyStr, data := data }])
  else
    (.error (.valueError
      "Instantiate Event with type='post' or 'both' to be able to post events"),
     [])

/-- Outcome of scanning a list of messages (or timed arrivals): either
the `assert event_name == self.event_name` failed on some message, or a
message with the right id was found (returning its data and the
unconsumed tail), or the scan ran out (returning what remains
unconsumed, i.e. everything the poll would not have yielded in time). -/
inductive ScanOut (β : Type) where
  | assertFail (rest : β)
  | found (d : Data) (rest : β)
  | exhausted (rest : β)

/-- Phase one of `Event.wait`: drain messages already buffered, without
blocking (`poller.poll(0)`), returning the data of the first message
whose id matches and discarding non-matching messages. -/
def waitDrainBuffered (ename id : String) :
    List EventMsg → ScanOut (List EventMsg)
  | [] => .exhausted []
  | m :: rest =>
      if m.name ≠ ename then .assertFail rest
      else if m.id = id then .found m.data rest
      else waitDrainBuffered ename id rest

/-- Phase two of `Event.wait`: receive-and-compare against the deadline
`start_time + timeout`.  An arrival is a (time, message) pair, times
measured from `start_time`; arrivals are in time order.  An arrival at
or after the deadline is not received (the poll with the remaining time
expires first and the loop breaks), and it stays queued. -/
def waitBlocking (ename id : String) (timeout : Nat) :
    List (Nat × EventMsg) → ScanOut (List (Nat × EventMsg))
  | [] => .exhausted []
  | (t, m) :: rest =>
      if timeout ≤ t then .exhausted ((t, m) :: rest)
      else if m.name ≠ ename then .assertFail rest
      else if m.id = id then .found m.data rest
      else waitBlocking ename id timeout rest

/-- Everything observable about one `Event.wait` call: its result, what
remains buffered, and which timed arrivals were never received.  The
remainders are what a subsequent `wait` on the same instance would see
first — scanned non-matching messages are gone from them. -/
structure WaitOutcome where
  result : Except PyError Data
  bufferedRemaining : List EventMsg
  arrivalsRemaining : List (Nat × EventMsg)

/-- `Event.wait(id, timeout)`: raises `ValueError` if the instance
cannot wait (before touching any socket); otherwise drains the buffer
without blocking and, failing a match there, blocks with a deadline
computed from `timeout`, raising `TimeoutError` once it elapses.
`buffered` is what sits in the subscription buffer when the call starts;
`arrivals` are the messages that reach the subscriber afterwards, with
their arrival times relative to the start of phase two. -/
def eventWait (cfg : EventCfg) (id : PyVal) (buffered : List EventMsg)
    (arrivals : List (Nat × EventMsg)) (timeout : Nat) : WaitOutcome :=
  let ids := id.pyStr
  if ¬cfg.can_wait then
    { result := .error (.valueError
        "Instantiate Event with type='wait' or 'both' to be able to wait for events"),
      bufferedRemaining := buffered, arrivalsRemaining := arrivals }
  else
    match waitDrainBuffered cfg.event_name ids buffered with
    | .assertFail rest =>
        { result := .error .assertionError, bufferedRemaining := rest,
          arrivalsRemaining := arrivals }
    | .found d rest =>
        { result := .ok d, bufferedRemaining := rest,
          arrivalsRemaining := arrivals }
    | .exhausted _ =>
        match waitBlocking cfg.event_name ids timeout arrivals with
        | .assertFail rest =>
            { result := .error .assertionError, bufferedRemaining := [],
              arrivalsRemaining := rest }
        | .found d rest =>
            { result := .ok d, bufferedRemaining := [],
              arrivalsRemaining := rest }
        | .exhausted rest =>
            { result := .error (.timeoutError "No event received: timed out"),
              bufferedRemaining := [], arrivalsRemaining := rest }

/-- Whether a posted message satisfies a `wait(id=wid)` scanning the
same event name: `Event.wait` compares the received id frame against
`str(wid)`. -/
def waitMatches (m : EventMsg) (wid : PyVal) : Bool :=
  m.id = wid.pyStr

/-! ### ReadQueue (`ReadQueue.get` / `ReadQueue.put`)

A `ReadQueue` holds two sockets: `sock` (PULL, bound, the primary
receive socket) and `to_self_sock` (PUSH, connected back to the same
endpoint `sock` is bound to), each guarded by its own lock.  The state
tracks the incoming buffer of the shared endpoint and both locks. -/

/-- The two sockets of a `ReadQueue`. -/
inductive RQSocket where
  | primary   -- self.sock
  | to_self   -- self.to_self_sock
  deriving DecidableEq, Repr

/-- State of one `ReadQueue`: the messages queued at the receive
endpoint, and whether each of the two locks is currently held. -/
structure RQState where
  sockBuf : List Data
  socklock : Bool
  to_self_sock_lock : Bool

/-- `ReadQueue.put(obj)`: acquire `to_self_sock_lock` (`none` when it is
already held — the call would block), `send_pyobj` the object on
`to_self_sock` — whose connection loops back to the endpoint `sock` is
bound to, so the message joins `sock`'s incoming buffer — then release.
Also reports which sockets were written to. -/
def rqPut (s : RQState) (obj : Data) : Option (RQState × List RQSocket) :=
  if s.to_self_sock_lock then none
  else some ({ s with sockBuf := s.sockBuf ++ [obj] }, [.to_self])

/-- Entering `ReadQueue.get()` with no timeout: acquire `socklock`
(`none` when already held) and proceed to the blocking `recv_pyobj`. -/
def rqGetEnter (s : RQState) : Option RQState :=
  if s.socklock then none else some { s with socklock := true }

/-- The blocking `recv_pyobj` inside `get`, for a thread holding
`socklock`: while the buffer is empty the thread stays blocked
(`none`); once a message is available it is returned and `socklock`
released. -/
def rqGetRecv (s : RQState) : Option (Data × RQState) :=
  match s.sockBuf with
  | [] => none
  | d :: rest =>
      some (d, { sockBuf := rest, socklock := false,
                 to_self_sock_lock := s.to_self_sock_lock })

/-! ### Spawn argument vector
(`subprocess_with_queues` / `setup_connection_with_parent`)

The parent launches `Popen([sys.executable, '-u', path, str(port), ...])`,
so in the child `sys.argv` is the wrapper path followed by the string
arguments.  Python's `str()` of a nonnegative integer and `int()` of a
decimal digit string are modelled below. -/

/-- Decimal digit list of `n`, most significant first (`str(0) = "0"`). -/
def decimalDigits (n : Nat) : List Nat :=
  if n = 0 then [0] else (Nat.digits 10 n).reverse

/-- Python `str()` of a nonnegative integer: its decimal digits as
characters. -/
def pyStrOfNat (n : Nat) : String :=
  String.mk (decimalDigits n |>.map fun d => Char.ofNat (d + 48))

/-- Python `int()` applied to a string of decimal digits (`none` models
the `ValueError` Python raises on anything else; signs and whitespace,
which the spawn vector never produces, are out of the model). -/
def pyIntOfStr (s : String) : Option Nat :=
  if s.data ≠ [] ∧ s.data.all (fun c => decide (48 ≤ c.toNat ∧ c.toNat ≤ 57))
  then some (Nat.ofDigits 10 ((s.data.map fun c => c.toNat - 48)).reverse)
  else none

/-- The argument vector `subprocess_with_queues` appends after
`[sys.executable, '-u', path]` when launching the child. -/
def spawnArgv (port_from_child heartbeat_server_port
    output_redirection_port broker_sub_port broker_pub_port : Nat)
    (zlock_process_identifier_pfx : String) : List String :=
  [pyStrOfNat port_from_child, pyStrOfNat heartbeat_server_port,
   pyStrOfNat output_redirection_port, pyStrOfNat broker_sub_port,
   pyStrOfNat broker_pub_port, zlock_process_identifier_pfx]

/-- What `setup_connection_with_parent` recovers from `sys.argv`. -/
structure ParentConnArgs where
  port_to_parent : Nat
  port_to_heartbeat_server : Nat
  output_redirection_port : Nat
  broker_sub_port : Nat
  broker_pub_port : Nat
  zlock_process_identifier_pfx : String
  deriving DecidableEq, Repr

/-- The parse `setup_connection_with_parent` performs on startup:
`int(sys.argv[1])` through `int(sys.argv[5])` and `sys.argv[6]` as-is
(`sys.argv[0]` is the wrapper script path). -/
def setupConnectionParseArgv (argv : List String) : Option ParentConnArgs :=
  match argv with
  | _script :: a1 :: a2 :: a3 :: a4 :: a5 :: a6 :: _ =>
      match pyIntOfStr a1, pyIntOfStr a2, pyIntOfStr a3,
            pyIntOfStr a4, pyIntOfStr a5 with
      | some p1, some p2, some p3, some p4, some p5 =>
          some ⟨p1, p2, p3, p4, p5, a6⟩
      | _, _, _, _, _ => none
  | _ => none

/-- `if output_redirection_port:` — zero indicates no output
redirection in the child. -/
def outputRedirectionEnabled (port : Nat) : Bool :=
  port ≠ 0

/-! ## Supporting lemmas -/

theorem decimalDigits_lt (n : Nat) : ∀ d ∈ decimalDigits n, d < 10 := by
  intro d hd
  unfold decimalDigits at hd
  split at hd
  · simp at hd; omega
  · exact Nat.digits_lt_base (by norm_num) (List.mem_reverse.mp hd)

theorem decimalDigits_ne_nil (n : Nat) : decimalDigits n ≠ [] := by
  unfold decimalDigits
  split
  · simp
  · simpa using Nat.digits_ne_nil_iff_ne_zero.mpr (by assumption)

theorem ofDigits_decimalDigits (n : Nat) :
    Nat.ofDigits 10 (decimalDigits n).reverse = n := by
  unfold decimalDigits
  split
  · simp [Nat.ofDigits]; omega
  · rw [List.reverse_reverse, Nat.ofDigits_digits]

theorem char_digit_toNat {d : Nat} (h : d < 10) :
    (Char.ofNat (d + 48)).toNat = d + 48 := by
  have hv : d + 48 < 0xd800 := by omega
  simp [Char.ofNat, Char.toNat, Nat.isValidChar, hv, Char.ofNatAux,
    UInt32.toNat, UInt32.ofNatCore, BitVec.toNat_ofNatLt]

/-- `int(str(n)) == n` for the nonnegative integers the spawn protocol
passes on the command line. -/
theorem pyIntOfStr_pyStrOfNat (n : Nat) : pyIntOfStr (pyStrOfNat n) = some n := by
  have hlt := decimalDigits_lt n
  have hne := decimalDigits_ne_nil n
  unfold pyIntOfStr pyStrOfNat
  rw [if_pos]
  · congr 1
    rw [List.map_map]
    have hmap : (decimalDigits n).map
        ((fun c : Char => c.toNat - 48) ∘ (fun d => Char.ofNat (d + 48)))
        = decimalDigits n := by
      conv_rhs => rw [← List.map_id (decimalDigits n)]
      apply List.map_congr_left
      intro d hd
      simp [char_digit_toNat (hlt d hd)]
    rw [hmap, ofDigits_decimalDigits]
  · constructor
    · simpa using hne
    · rw [List.all_eq_true]
      intro c hc
      simp only [List.mem_map] at hc
      obtain ⟨d, hd, rfl⟩ := hc
      have hd10 := hlt d hd
      simp [char_digit_toNat hd10]
      omega

/-! ## Claim theorems -/

/-- C7: the argument vector the parent passes when launching a child
(`subprocess_with_queues`) and the parsing the child performs on startup
(`setup_connection_with_parent`) agree position by position: the child
recovers exactly the parent-receive port, heartbeat-relay port,
output-redirection port (0 meaning disabled), broker fan-in port, broker
fan-out port, and lock-identifier-prefix string the parent supplied, in
that order. -/
theorem spawn_argv_parse_roundtrip (path : String)
    (port_from_child heartbeat_server_port output_redirection_port
     broker_sub_port broker_pub_port : Nat) (pfx : String) :
    setupConnectionParseArgv
      (path :: spawnArgv port_from_child heartbeat_server_port
        output_redirection_port broker_sub_port broker_pub_port pfx)
    = some ⟨port_from_child, heartbeat_server_port,
            output_redirection_port, broker_sub_port, broker_pub_port, pfx⟩
    ∧ outputRedirectionEnabled 0 = false := by
  constructor
  · simp [spawnArgv, setupConnectionParseArgv, pyIntOfStr_pyStrOfNat]
  · rfl

theorem heartbeatMainloop_running_iff (pid : List Nat) (lock : Option Unit)
    (cycles : List CycleOutcome) :
    heartbeatMainloop pid lock cycles = .running
      ↔ ∀ c ∈ cycles, c = .echo pid := by
  induction cycles with
  | nil => simp [heartbeatMainloop]
  | cons c rest ih =>
      cases c with
      | timeout => simp [heartbeatMainloop]
      | echo msg =>
          by_cases h : msg = pid
          · subst h
            simp [heartbeatMainloop, ih]
          · simp [heartbeatMainloop, h]

theorem heartbeatMainloop_kill_on_first_bad (pid : List Nat)
    (lock : Option Unit) (good : List CycleOutcome) (bad : CycleOutcome)
    (rest : List CycleOutcome) (hgood : ∀ c ∈ good, c = .echo pid)
    (hbad : bad ≠ .echo pid) :
    heartbeatMainloop pid lock (good ++ bad :: rest)
      = .killed lock.isSome := by
  induction good with
  | nil =>
      cases bad with
      | timeout => simp [heartbeatMainloop]
      | echo msg =>
          have h : msg ≠ pid := fun h => hbad (by rw [h])
          simp [heartbeatMainloop, h]
  | cons c cs ih =>
      have hc := hgood c (List.mem_cons_self c cs)
      subst hc
      simp only [List.cons_append, heartbeatMainloop, if_pos rfl]
      exact ih fun c hc => hgood c (List.mem_cons_of_mem _ hc)

/-- C1: the heartbeat client cycles at the fixed 1-second interval,
sending its pid bytes and waiting up to 1 second (1000 ms) for the
identical bytes to be echoed; the loop keeps running (never kills the
process) exactly as long as every cycle echoes the pid bytes in time,
and the first cycle that times out — which is also how a connection
failure manifests — or echoes different bytes leads unconditionally to
`os.kill(os.getpid(), SIGTERM)`, taken while holding the shared kill
lock that `create_instance` installed. -/
theorem heartbeat_client_kills_on_first_failure (pid : List Nat)
    (cycles : List CycleOutcome) :
    heartbeat_interval_seconds = 1
    ∧ heartbeat_poll_timeout_ms = 1000
    ∧ (heartbeatMainloop pid heartbeat_create_instance_lock cycles = .running
        ↔ ∀ c ∈ cycles, c = .echo pid)
    ∧ (∀ good bad rest, cycles = good ++ bad :: rest →
        (∀ c ∈ good, c = .echo pid) → bad ≠ .echo pid →
        heartbeatMainloop pid heartbeat_create_instance_lock cycles
          = .killed true) := by
  refine ⟨rfl, rfl, heartbeatMainloop_running_iff _ _ _, ?_⟩
  intro good bad rest hsplit hgood hbad
  rw [hsplit]
  exact heartbeatMainloop_kill_on_first_bad pid _ good bad rest hgood hbad

/-- Witness for C1 at a concrete trace: pid bytes `[52, 50]`, one good
echo then a timeout, then anything; the loop kills with the lock held. -/
theorem heartbeat_client_kills_on_first_failure_witness :
    heartbeatMainloop [52, 50] heartbeat_create_instance_lock
      [.echo [52, 50], .timeout, .echo [52, 50]] = .killed true :=
  (heartbeat_client_kills_on_first_failure [52, 50]
      [.echo [52, 50], .timeout, .echo [52, 50]]).2.2.2
    [.echo [52, 50]] .timeout [.echo [52, 50]] rfl
    (by intro c hc; simpa using hc) (by simp)

theorem typecheck_pyobj (d : Data) :
    typecheck_or_convert_data d .pyobj = .ok d := by
  simp [typecheck_or_convert_data, Data.isNone, Data.isBytes]

/-- C3: payload validation runs before any send (a typecheck failure
leaves the client's send list empty), acceptance is characterized per
wire kind (so a value of the wrong kind fails), every validation failure
is a `TypeError`, and an accepted payload is never coerced except for
the two documented conversions: a bare bytes payload is wrapped into a
one-element list for multipart, and a null payload becomes empty bytes
for raw and multipart (for multipart, the empty bytes are then wrapped). -/
theorem typecheck_validates_before_send_never_coerces
    (ty : SendType) (d : Data) :
    (∀ d', typecheck_or_convert_data d ty = .ok d' →
      d' = d
      ∨ (ty = .multipart ∧ ∃ b, d = .pybytes b ∧ d' = .pylist [.pybytes b])
      ∨ (ty = .raw ∧ d = .pynone ∧ d' = .pybytes [])
      ∨ (ty = .multipart ∧ d = .pynone ∧ d' = .pylist [.pybytes []]))
    ∧ ((∃ d', typecheck_or_convert_data d ty = .ok d') ↔
        (match ty with
          | .raw => d.isNone ∨ d.isBytes
          | .string => d.isStr
          | .multipart => d.isNone ∨ d.isBytes ∨
              (∃ parts, d.iterParts = some parts ∧ parts.all Data.isBytes)
          | .pyobj => True))
    ∧ (∀ e, typecheck_or_convert_data d ty = .error e →
        ∃ m, e = .typeError m)
    ∧ (∀ st host port reply e, typecheck_or_convert_data d ty = .error e →
        (zmqGetCall ty st host port d reply).sent = []) := by
  refine ⟨?_, ?_, ?_, ?_⟩
  case refine_2 =>
    cases ty <;> cases d <;>
      simp [typecheck_or_convert_data, Data.isNone, Data.isBytes,
        Data.isStr, Data.iterParts] <;>
      split <;> simp_all
  · intro d' h
    cases ty <;> cases d <;>
      simp_all [typecheck_or_convert_data, Data.isNone, Data.isBytes,
        Data.isStr, Data.iterParts] <;>
      first
        | tauto
        | (split at h <;> simp_all)
  · intro e h
    cases ty <;> cases d <;>
      simp_all [typecheck_or_convert_data, Data.isNone, Data.isBytes,
        Data.isStr, Data.iterParts] <;>
      first
        | tauto
        | (split at h <;> simp_all <;> tauto)
  · intro st host port reply e h
    simp [zmqGetCall, h]

/-- Witness for C3: a string payload on a raw-kind client fails the
typecheck and nothing is sent. -/
theorem typecheck_before_send_witness :
    (zmqGetCall .raw ⟨none, 0⟩ 0 0 (.pystr "x") none).sent = [] :=
  (typecheck_validates_before_send_never_coerces .raw (.pystr "x")).2.2.2
    ⟨none, 0⟩ 0 0 none (.typeError "raw sockets can only send bytes") rfl

/-- C2: for every wire kind, a `get` whose poll sees no reply within the
timeout fails with a `TimeoutError` and discards the cached socket, and
the next call by the same thread to the same (host, port) creates a
fresh socket (`new_socket` runs) and, when a normal reply arrives in
time, succeeds. -/
theorem zmqget_timeout_discards_and_reconnects (ty : SendType)
    (st : GetState) (host port : Nat) (data d data2 d2 reply2 : Data)
    (h1 : typecheck_or_convert_data data ty = .ok d)
    (h2 : typecheck_or_convert_data data2 ty = .ok d2)
    (hr : reply2.isExc = false) :
    (zmqGetCall ty st host port data none).result
        = .error (.timeout "No response from server: timed out")
    ∧ (zmqGetCall ty st host port data none).state.sock = none
    ∧ (zmqGetCall ty (zmqGetCall ty st host port data none).state
        host port data2 (some reply2)).madeNewSocket = true
    ∧ (zmqGetCall ty (zmqGetCall ty st host port data none).state
        host port data2 (some reply2)).result = .ok reply2 := by
  cases hs : st.sock with
  | none => simp [zmqGetCall, hs, h1, h2, hr]
  | some c => by_cases hc : c.host ≠ host ∨ c.port ≠ port <;>
      simp [zmqGetCall, hs, h1, h2, hr, hc]

/-- Witness for C2 at concrete inputs (pyobj kind, port 5). -/
theorem zmqget_timeout_witness :
    (zmqGetCall .pyobj ⟨none, 0⟩ 0 5 .pynone none).result
        = .error (.timeout "No response from server: timed out")
    ∧ (zmqGetCall .pyobj ⟨none, 0⟩ 0 5 .pynone none).state.sock = none
    ∧ (zmqGetCall .pyobj (zmqGetCall .pyobj ⟨none, 0⟩ 0 5 .pynone none).state
        0 5 (.pyint 3) (some (.pyint 7))).madeNewSocket = true
    ∧ (zmqGetCall .pyobj (zmqGetCall .pyobj ⟨none, 0⟩ 0 5 .pynone none).state
        0 5 (.pyint 3) (some (.pyint 7))).result = .ok (.pyint 7) :=
  zmqget_timeout_discards_and_reconnects .pyobj ⟨none, 0⟩ 0 5
    .pynone .pynone (.pyint 3) (.pyint 3) (.pyint 7) rfl rfl rfl

/-- C9: on the object wire kind, a reply that arrives in time but is an
exception value is raised locally and the cached socket is discarded, so
the next call to the same (host, port) runs `new_socket` even though no
transport failure or timeout occurred — and can succeed. -/
theorem zmqget_exception_reply_discards_socket (st : GetState)
    (host port : Nat) (data data2 : Data) (m : String) (reply2 : Data)
    (hr : reply2.isExc = false) :
    (zmqGetCall .pyobj st host port data (some (.pyexc m))).result
        = .error (.appException m)
    ∧ (zmqGetCall .pyobj st host port data (some (.pyexc m))).state.sock
        = none
    ∧ (zmqGetCall .pyobj
        (zmqGetCall .pyobj st host port data (some (.pyexc m))).state
        host port data2 (some reply2)).madeNewSocket = true
    ∧ (zmqGetCall .pyobj
        (zmqGetCall .pyobj st host port data (some (.pyexc m))).state
        host port data2 (some reply2)).result = .ok reply2 := by
  have h1 := typecheck_pyobj data
  have h2 := typecheck_pyobj data2
  cases hs : st.sock with
  | none => cases reply2 <;>
      simp_all [zmqGetCall, Data.isExc]
  | some c => by_cases hc : c.host ≠ host ∨ c.port ≠ port <;>
      cases reply2 <;> simp_all [zmqGetCall, Data.isExc, hc]

/-- Witness for C9 at concrete inputs. -/
theorem zmqget_exception_reply_witness :
    (zmqGetCall .pyobj ⟨none, 0⟩ 0 5 .pynone (some (.pyexc "boom"))).result
        = .error (.appException "boom")
    ∧ (zmqGetCall .pyobj ⟨none, 0⟩ 0 5 .pynone
        (some (.pyexc "boom"))).state.sock = none
    ∧ (zmqGetCall .pyobj
        (zmqGetCall .pyobj ⟨none, 0⟩ 0 5 .pynone
          (some (.pyexc "boom"))).state
        0 5 (.pyint 3) (some (.pyint 7))).madeNewSocket = true
    ∧ (zmqGetCall .pyobj
        (zmqGetCall .pyobj ⟨none, 0⟩ 0 5 .pynone
          (some (.pyexc "boom"))).state
        0 5 (.pyint 3) (some (.pyint 7))).result = .ok (.pyint 7) :=
  zmqget_exception_reply_discards_socket ⟨none, 0⟩ 0 5 .pynone
    (.pyint 3) "boom" (.pyint 7) rfl

/-- C5: for every wire kind, when the handler raises while processing a
request, the accept loop still sends exactly one reply — well-formed for
the configured kind, i.e. accepted by the payload typecheck — raises the
failure asynchronously in a separate thread, and continues looping. -/
theorem server_handler_exception_still_replies (ty : SendType)
    (m : String) :
    (serverMainloopStep ty (.exc m)).replies = [serverErrorReply ty m]
    ∧ (∃ d, typecheck_or_convert_data (serverErrorReply ty m) ty = .ok d)
    ∧ (serverMainloopStep ty (.exc m)).asyncRaised = true
    ∧ (serverMainloopStep ty (.exc m)).continues = true := by
  refine ⟨rfl, ?_, rfl, rfl⟩
  cases ty <;>
    simp [serverErrorReply, typecheck_or_convert_data, Data.isNone,
      Data.isBytes, Data.isStr, Data.iterParts]

theorem waitDrainBuffered_found (ename id : String) (pre : List EventMsg)
    (m : EventMsg) (rest : List EventMsg)
    (hpre : ∀ p ∈ pre, p.name = ename ∧ p.id ≠ id)
    (hname : m.name = ename) (hid : m.id = id) :
    waitDrainBuffered ename id (pre ++ m :: rest) = .found m.data rest := by
  induction pre with
  | nil => simp [waitDrainBuffered, hname, hid]
  | cons p ps ih =>
      obtain ⟨hn, hi⟩ := hpre p (List.mem_cons_self p ps)
      simp only [List.cons_append, waitDrainBuffered, hn, hi,
        ne_eq, not_true_eq_false, if_false, if_neg]
      exact ih fun q hq => hpre q (List.mem_cons_of_mem _ hq)

theorem waitDrainBuffered_exhausted (ename id : String)
    (l : List EventMsg) (h : ∀ p ∈ l, p.name = ename ∧ p.id ≠ id) :
    waitDrainBuffered ename id l = .exhausted [] := by
  induction l with
  | nil => simp [waitDrainBuffered]
  | cons p ps ih =>
      obtain ⟨hn, hi⟩ := h p (List.mem_cons_self p ps)
      simp only [waitDrainBuffered, hn, hi, ne_eq, not_true_eq_false,
        if_false, if_neg]
      exact ih fun q hq => h q (List.mem_cons_of_mem _ hq)

theorem waitBlocking_found (ename id : String) (timeout : Nat)
    (pre : List (Nat × EventMsg)) (t : Nat) (m : EventMsg)
    (rest : List (Nat × EventMsg))
    (hpre : ∀ q ∈ pre, q.1 < timeout ∧ q.2.name = ename ∧ q.2.id ≠ id)
    (ht : t < timeout) (hname : m.name = ename) (hid : m.id = id) :
    waitBlocking ename id timeout (pre ++ (t, m) :: rest)
      = .found m.data rest := by
  induction pre with
  | nil => simp [waitBlocking, Nat.not_le.mpr ht, hname, hid]
  | cons q qs ih =>
      obtain ⟨hqt, hqn, hqi⟩ := hpre q (List.mem_cons_self q qs)
      rw [List.cons_append, show q = (q.1, q.2) from rfl]
      simp only [waitBlocking, Nat.not_le.mpr hqt, hqn, hqi, ne_eq,
        not_true_eq_false, if_false, if_neg]
      exact ih fun p hp => hpre p (List.mem_cons_of_mem _ hp)

theorem waitBlocking_exhausted (ename id : String) (timeout : Nat)
    (l : List (Nat × EventMsg))
    (h : ∀ q ∈ l, q.1 < timeout → q.2.name = ename ∧ q.2.id ≠ id) :
    ∃ rest, waitBlocking ename id timeout l = .exhausted rest := by
  induction l with
  | nil => exact ⟨[], rfl⟩
  | cons q qs ih =>
      by_cases hqt : timeout ≤ q.1
      · refine ⟨q :: qs, ?_⟩
        rw [show q = (q.1, q.2) from rfl]
        simp [waitBlocking, hqt]
      · obtain ⟨hqn, hqi⟩ := h q (List.mem_cons_self q qs) (Nat.not_le.mp hqt)
        obtain ⟨rest, hrest⟩ := ih fun p hp => h p (List.mem_cons_of_mem _ hp)
        refine ⟨rest, ?_⟩
        rw [show q = (q.1, q.2) from rfl]
        simp only [waitBlocking, hqt, hqn, hqi, ne_eq, not_true_eq_false,
          if_false, if_neg]
        exact hrest

/-- C4: `wait(id, timeout)` proceeds in two phases. (i) It first drains
already-buffered messages without blocking: if the buffer holds a match
after some non-matching messages, that match's data is returned, the
scanned non-matches are discarded (a later wait sees only what follows
the match) and no timed arrival is consumed — in particular a wait
issued after a matching post was buffered returns its data without
blocking, whatever arrives later. (ii) With no buffered match, the call
receives and compares against the deadline computed from `timeout`,
returning the data of the first matching message arriving before the
deadline. (iii) If every arrival before the deadline is non-matching,
the deadline elapses and a `TimeoutError` is raised. -/
theorem event_wait_two_phase (cfg : EventCfg) (wid : PyVal)
    (buffered : List EventMsg) (arrivals : List (Nat × EventMsg))
    (timeout : Nat) (hw : cfg.can_wait = true) :
    (∀ pre m rest, buffered = pre ++ m :: rest →
      (∀ p ∈ pre, p.name = cfg.event_name ∧ p.id ≠ wid.pyStr) →
      m.name = cfg.event_name → m.id = wid.pyStr →
      eventWait cfg wid buffered arrivals timeout =
        { result := .ok m.data, bufferedRemaining := rest,
          arrivalsRemaining := arrivals })
    ∧ ((∀ p ∈ buffered, p.name = cfg.event_name ∧ p.id ≠ wid.pyStr) →
      ∀ pre t m rest, arrivals = pre ++ (t, m) :: rest →
        (∀ q ∈ pre, q.1 < timeout ∧ q.2.name = cfg.event_name
          ∧ q.2.id ≠ wid.pyStr) →
        t < timeout → m.name = cfg.event_name → m.id = wid.pyStr →
        (eventWait cfg wid buffered arrivals timeout).result = .ok m.data)
    ∧ ((∀ p ∈ buffered, p.name = cfg.event_name ∧ p.id ≠ wid.pyStr) →
      (∀ q ∈ arrivals, q.1 < timeout → q.2.name = cfg.event_name
        ∧ q.2.id ≠ wid.pyStr) →
      (eventWait cfg wid buffered arrivals timeout).result
        = .error (.timeoutError "No event received: timed out")) := by
  refine ⟨?_, ?_, ?_⟩
  · intro pre m rest hb hpre hname hid
    subst hb
    simp [eventWait, hw,
      waitDrainBuffered_found cfg.event_name wid.pyStr pre m rest hpre
        hname hid]
  · intro hbuf pre t m rest ha hpre ht hname hid
    subst ha
    have hd := waitDrainBuffered_exhausted cfg.event_name wid.pyStr
      buffered hbuf
    have hb := waitBlocking_found cfg.event_name wid.pyStr timeout pre t m
      rest hpre ht hname hid
    simp [eventWait, hw, hd, hb]
  · intro hbuf harr
    have hd := waitDrainBuffered_exhausted cfg.event_name wid.pyStr
      buffered hbuf
    obtain ⟨rest, hb⟩ := waitBlocking_exhausted cfg.event_name wid.pyStr
      timeout arrivals harr
    simp [eventWait, hw, hd, hb]

/-- Witness for C4 at a concrete input: a buffered non-match `"b"`
followed by a buffered match `"c"` carrying 7; the wait returns 7,
discards the non-match, and consumes no timed arrival. -/
theorem event_wait_two_phase_witness :
    eventWait ⟨"evt", true, false⟩ (.vstr "c")
      [⟨"evt", "b", .pyint 1⟩, ⟨"evt", "c", .pyint 7⟩] [(0, ⟨"evt", "c", .pyint 9⟩)] 5 =
      { result := .ok (.pyint 7), bufferedRemaining := [],
        arrivalsRemaining := [(0, ⟨"evt", "c", .pyint 9⟩)] } :=
  (event_wait_two_phase ⟨"evt", true, false⟩ (.vstr "c")
      [⟨"evt", "b", .pyint 1⟩, ⟨"evt", "c", .pyint 7⟩]
      [(0, ⟨"evt", "c", .pyint 9⟩)] 5 rfl).1
    [⟨"evt", "b", .pyint 1⟩] ⟨"evt", "c", .pyint 7⟩ [] rfl
    (by
      intro p hp
      rw [List.mem_singleton] at hp
      subst hp
      exact ⟨rfl, by decide⟩)
    rfl rfl

/-- C6 counterexample: `post(id=1)` (a Python int) produces a message
that satisfies `wait(id="1")` (a Python str) — the wait returns the
posted data — although the two id values are not equal: matching is by
`str()` image, not by value equality of the tokens themselves. -/
theorem event_id_value_equality_counterexample :
    (eventPost ⟨"evt", false, true⟩ (.vint 1) (.pyint 5)).2
      = [⟨"evt", "1", .pyint 5⟩]
    ∧ waitMatches ⟨"evt", "1", .pyint 5⟩ (.vstr "1") = true
    ∧ PyVal.vint 1 ≠ PyVal.vstr "1"
    ∧ (eventWait ⟨"evt", true, true⟩ (.vstr "1")
        [⟨"evt", "1", .pyint 5⟩] [] 1).result = .ok (.pyint 5) := by
  refine ⟨rfl, by decide, by decide, ?_⟩
  simp [eventWait, waitDrainBuffered, PyVal.pyStr]

/-- C6 amended: a posted message satisfies a `wait` on the same event
name exactly when the `str()` images of the posted id and the waited-for
id are equal; equal id values therefore always match, but so do distinct
values with the same string form (such as int 1 and string "1"). -/
theorem event_id_match_iff_str_eq (cfg : EventCfg) (pid wid : PyVal)
    (data : Data) (m : EventMsg) (hp : cfg.can_post = true)
    (hm : m ∈ (eventPost cfg pid data).2) :
    (waitMatches m wid = true ↔ pid.pyStr = wid.pyStr)
    ∧ (pid = wid → waitMatches m wid = true) := by
  have hmeq : m = ⟨cfg.event_name, pid.pyStr, data⟩ := by
    simp [eventPost, hp] at hm
    exact hm
  subst hmeq
  refine ⟨by simp [waitMatches], ?_⟩
  intro h
  subst h
  simp [waitMatches]

/-- Witness for the amended C6 at a concrete input. -/
theorem event_id_match_iff_str_eq_witness :
    (waitMatches ⟨"evt", "7", .pynone⟩ (.vstr "7") = true
      ↔ (PyVal.vstr "7").pyStr = (PyVal.vstr "7").pyStr)
    ∧ (PyVal.vstr "7" = PyVal.vstr "7" →
        waitMatches ⟨"evt", "7", .pynone⟩ (.vstr "7") = true) :=
  event_id_match_iff_str_eq ⟨"evt", false, true⟩ (.vstr "7") (.vstr "7")
    .pynone ⟨"evt", "7", .pynone⟩ rfl (by simp [eventPost, PyVal.pyStr])

/-- C8: `put(value)` on a read/write channel sends only on the second,
self-delivery connection, under its own dedicated mutex: it completes
whenever that mutex is free, regardless of (and without modifying) the
mutex `get` holds; and when a thread is blocked inside `get` on the
empty primary connection, the value delivered by `put` is exactly what
unblocks that `get`. -/
theorem readqueue_put_unblocks_get (s : RQState) (obj : Data)
    (hfree : s.to_self_sock_lock = false) :
    rqPut s obj = some
      ({ sockBuf := s.sockBuf ++ [obj], socklock := s.socklock,
         to_self_sock_lock := s.to_self_sock_lock }, [RQSocket.to_self])
    ∧ RQSocket.primary ∉ [RQSocket.to_self]
    ∧ (s.sockBuf = [] →
        rqGetRecv s = none
        ∧ rqGetRecv ({ sockBuf := s.sockBuf ++ [obj],
                       socklock := s.socklock,
                       to_self_sock_lock := s.to_self_sock_lock } : RQState)
          = some (obj, { sockBuf := [], socklock := false,
                         to_self_sock_lock := s.to_self_sock_lock })) := by
  refine ⟨?_, by decide, ?_⟩
  · simp [rqPut, hfree]
  · intro hbuf
    exact ⟨by simp [rqGetRecv, hbuf], by simp [rqGetRecv, hbuf]⟩

/-- Witness for C8: a `put` while `get` holds the primary lock on an
empty buffer; the `put` completes and its value unblocks the `get`. -/
theorem readqueue_put_unblocks_get_witness :
    rqPut ⟨[], true, false⟩ (.pyint 9) = some
      ({ sockBuf := [] ++ [Data.pyint 9], socklock := true,
         to_self_sock_lock := false }, [RQSocket.to_self])
    ∧ RQSocket.primary ∉ [RQSocket.to_self]
    ∧ (([] : List Data) = [] →
        rqGetRecv ⟨[], true, false⟩ = none
        ∧ rqGetRecv ({ sockBuf := [] ++ [Data.pyint 9], socklock := true,
                       to_self_sock_lock := false } : RQState)
          = some (.pyint 9, { sockBuf := [], socklock := false,
                              to_self_sock_lock := false })) :=
  readqueue_put_unblocks_get ⟨[], true, false⟩ (.pyint 9) rfl

/-- C10: constructing an `Event` with any mode string other than
`'wait'`, `'post'`, `'both'` raises a `ValueError`; `post` on a
wait-only event raises a `ValueError` with nothing sent; `wait` on a
post-only event raises a `ValueError` with nothing received — buffer
and pending arrivals are left exactly as they were. -/
theorem event_mode_validation (name ty : String) (id : PyVal)
    (data : Data) (buffered : List EventMsg)
    (arrivals : List (Nat × EventMsg)) (timeout : Nat) :
    (ty ≠ "wait" → ty ≠ "post" → ty ≠ "both" →
      eventInit name ty
        = .error (.valueError "type must be 'wait', 'post', or 'both'"))
    ∧ (∀ cfg, eventInit name "wait" = .ok cfg →
        eventPost cfg id data = (.error (.valueError
          "Instantiate Event with type='post' or 'both' to be able to post events"),
          []))
    ∧ (∀ cfg, eventInit name "post" = .ok cfg →
        eventWait cfg id buffered arrivals timeout =
          { result := .error (.valueError
              "Instantiate Event with type='wait' or 'both' to be able to wait for events"),
            bufferedRemaining := buffered,
            arrivalsRemaining := arrivals }) := by
  refine ⟨?_, ?_, ?_⟩
  · intro h1 h2 h3
    simp [eventInit, h1, h2, h3]
  · intro cfg hcfg
    have : cfg = ⟨name, true, false⟩ := by
      simp [eventInit] at hcfg
      exact hcfg.symm
    subst this
    simp [eventPost]
  · intro cfg hcfg
    have : cfg = ⟨name, false, true⟩ := by
      simp [eventInit] at hcfg
      exact hcfg.symm
    subst this
    simp [eventWait]

/-- Witness for C10 at concrete inputs: an invalid mode string, a post
on a wait-only event, and a wait on a post-only event. -/
theorem event_mode_validation_witness :
    (eventInit "evt" "neither"
        = .error (.valueError "type must be 'wait', 'post', or 'both'"))
    ∧ (eventPost ⟨"evt", true, false⟩ (.vstr "a") .pynone
        = (.error (.valueError
          "Instantiate Event with type='post' or 'both' to be able to post events"),
          []))
    ∧ (eventWait ⟨"evt", false, true⟩ (.vstr "a") [] [] 0 =
        { result := .error (.valueError
            "Instantiate Event with type='wait' or 'both' to be able to wait for events"),
          bufferedRemaining := [], arrivalsRemaining := [] }) :=
  ⟨(event_mode_validation "evt" "neither" (.vstr "a") .pynone [] [] 0).1
      (by decide) (by decide) (by decide),
   (event_mode_validation "evt" "wait" (.vstr "a") .pynone [] [] 0).2.1
      ⟨"evt", true, false⟩ rfl,
   (event_mode_validation "evt" "post" (.vstr "a") .pynone [] [] 0).2.2
      ⟨"evt", false, true⟩ rfl⟩

end ZProcess
